import Mathlib

/-!
Verification development for the natural-language-to-chart backend's
query-synthesis-and-verification pipeline.

The TypeScript pipeline is shallowly embedded: pure helpers become Lean
functions; every external effect (MySQL round-trip, LLM completion) becomes
an explicit `Except String`-valued stub passed in as an argument, where the
`String` error models the thrown JS exception's message.  `JSON.parse` of an
LLM response is modelled by an oracle `String → Option <parsed record>`
(`none` models a parse exception); the records carry `Option` fields so that
an absent JSON field is representable.  Prompt strings sent to the LLM are
not modelled (they only influence the stubbed LLM response).
-/

set_option linter.unusedVariables false

namespace PromptToChart

/-- The characters `{` and `}` used by the JSON-extraction convention. -/
def openBrace : Char := Char.ofNat 123

def closeBrace : Char := Char.ofNat 125

/-- Does `pat` occur at the head of `hay`?  (helper for substring search). -/
def leadMatch : List Char → List Char → Bool
  | _, [] => true
  | [], _ :: _ => false
  | c :: cs, p :: ps => c == p && leadMatch cs ps

/-- Does `pat` occur anywhere inside `hay`?  (helper for substring search). -/
def sublistSearch : List Char → List Char → Bool
  | [], pat => pat.isEmpty
  | c :: rest, pat => leadMatch (c :: rest) pat || sublistSearch rest pat

/-- Model of JavaScript `s.includes(pat)`. -/
def containsSubstr (s pat : String) : Bool :=
  sublistSearch s.data pat.data

/-- Model of JavaScript `s.toLowerCase()`: lowercase character by character
(the queries and names involved only ever mix ASCII letters with Thai
characters, which lowercasing leaves unchanged). -/
def toLowerStr (s : String) : String :=
  String.mk (s.data.map Char.toLower)

/-- Model of the extraction convention `contentString.match(/\x7b[\s\S]*\x7d/)`
used at every LLM call site: the (greedy) match runs from the first `{` of the
response to the last `}`; the match exists iff some `}` occurs after some `{`. -/
def extractJsonCandidate (s : String) : Option String :=
  let fromFirstBrace := s.data.dropWhile (fun c => c ≠ openBrace)
  let keptReversed := fromFirstBrace.reverse.dropWhile (fun c => c ≠ closeBrace)
  if keptReversed.isEmpty then none else some (String.mk keptReversed.reverse)

/-- `TableDescriptor` (spec §3): output of `getAvailableTables`. -/
structure TableDescriptor where
  name : String
  comment : String
deriving DecidableEq, Repr

/-- `ColumnDescriptor` (spec §3): derived column metadata.  The prose fields
`defaultValue`/`maxLength` of `analyzeTableStructure` rows are elided; no
claim depends on them. -/
structure ColumnDescriptor where
  name : String
  type : String
  comment : String
  nullable : Bool := false
  isNumeric : Bool
  isDate : Bool
  isText : Bool
  canBeGrouped : Bool
  canBeAggregated : Bool
  suitableForFilter : Bool := true
  suggestedChartTypes : List String
deriving DecidableEq, Repr

/-- A database cell: JS row values are strings or numbers here. -/
inductive CellValue where
  | str (s : String)
  | num (n : Int)
deriving DecidableEq, Repr

/-- A database row object, modelled as a field-name/value association list. -/
abbrev DbRow := List (String × CellValue)

/-- `ColumnAnalysis` (spec §3).  `required_columns` is an `Option` because the
slow path assigns the raw `JSON.parse` result, which may lack the field;
everywhere the code reads `columnAnalysis.required_columns.join(...)` an
absent field raises a `TypeError`.  The prose fields (`analysis`,
`chart_reasoning`, `suggested_filters`, `column_reasoning`) are elided; they
only feed LLM prompts and status messages. -/
structure ColumnAnalysis where
  required_columns : Option (List String)
  chart_type : String
  alternative_charts : List String
  data_aggregation : String
  x_axis : String
  y_axis : String
deriving DecidableEq, Repr

/-- `SqlSynthesisResult` (spec §3): return shape of `generateSQLQueryWithAI`. -/
structure SqlSynthesisResult where
  sqlQuery : String
  explanation : String
  queryReasoning : String := ""
  columnsUsed : List String := []
  filtersApplied : List String := []
  chartSuitability : String := ""
  sampleDataInsights : String := ""
deriving DecidableEq, Repr

/-- `VerificationResult` (spec §3): return shape of `verifyQueryResultsWithAI`.
The `dataQuality` prose sub-record is elided; no claim depends on it. -/
structure VerificationResult where
  isValid : Bool
  confidenceScore : Int
  issuesFound : List String
  suggestions : List String
  shouldRetry : Bool
  improvedSql : Option String
  reasoning : String
deriving DecidableEq, Repr

/-- `SampleDataset` (spec §3): return shape of `getSampleData`. -/
structure SampleDataset where
  sampleRecords : List DbRow
  distinctValues : List (String × List CellValue)
  categoricalColumns : List String
  totalSampleCount : Nat
deriving DecidableEq, Repr

/-! ## Table Selector (`detectBestTable`, part_000 lines 1680-1756) -/

/-- The `tableKeywords` mapping, in declaration order. -/
def tableKeywords : List (String × List String) :=
  [("olympic",
    ["เหรียญ", "โอลิมปิก", "กีฬา", "นักกีฬา", "ประเทศ", "ทอง", "เงิน", "ทองแดง",
     "medal", "olympic", "sport", "athlete", "country"]),
   ("sales",
    ["ขาย", "รายได้", "ลูกค้า", "สินค้า", "การขาย", "sale", "revenue", "customer",
     "product"]),
   ("employee",
    ["พนักงาน", "ลูกค้า", "เงินเดือน", "แผนก", "employee", "salary", "department"]),
   ("order", ["สั่งซื้อ", "คำสั่งซื้อ", "ออเดอร์", "order", "purchase"]),
   ("user", ["ผู้ใช้", "สมาชิก", "user", "member", "account"])]

/-- Score of one table against the (already lowercased) query:
10 per keyword that appears in the query while the table name contains the
keyword's category or the comment contains the keyword; +50 for the full
table name appearing in the query; +20 per underscore-delimited table-name
fragment appearing in the query. -/
def tableScore (query : String) (table : TableDescriptor) : Nat :=
  let tableName := toLowerStr table.name
  let tableComment := toLowerStr table.comment
  let keywordScore := (tableKeywords.map (fun p =>
    (p.2.filter (fun keyword =>
      containsSubstr query keyword &&
        (containsSubstr tableName p.1 || containsSubstr tableComment keyword))).length
      * 10)).sum
  let nameScore := if containsSubstr query tableName then 50 else 0
  let partScore :=
    ((tableName.splitOn "_").filter (fun word => containsSubstr query word)).length * 20
  keywordScore + nameScore + partScore

/-- A table paired with its score (entry of the JS `tableScores` array). -/
structure ScoredTable where
  table : TableDescriptor
  score : Nat
deriving DecidableEq, Repr

/-- Stable insertion (descending by score): an element is placed before the
first element whose score does not exceed it.  Together with `foldr` below
this reproduces the stable JS `Array.prototype.sort` with comparator
`(a, b) => b.score - a.score`. -/
def insertByScoreDesc (x : ScoredTable) : List ScoredTable → List ScoredTable
  | [] => [x]
  | y :: ys => if y.score ≤ x.score then x :: y :: ys else y :: insertByScoreDesc x ys

/-- Stable descending sort of the scored tables. -/
def sortByScoreDesc (l : List ScoredTable) : List ScoredTable :=
  l.foldr insertByScoreDesc []

/-- The hard-coded default descriptor used when the table list is empty
(`tableScores[0]?.table || availableTables[0] || {...}`). -/
def fallbackTableDescriptor : TableDescriptor :=
  { name := "olympic_medalists", comment := "Fallback table" }

/-- `detectBestTable`: score every table, stable-sort descending, take the
head; fall back to the first table, then to the hard-coded default. -/
def detectBestTable (userQuery : String) (availableTables : List TableDescriptor) :
    TableDescriptor :=
  let query := toLowerStr userQuery
  let tableScores := availableTables.map (fun t => ScoredTable.mk t (tableScore query t))
  match (sortByScoreDesc tableScores).head? with
  | some best => best.table
  | none =>
    match availableTables.head? with
    | some t => t
    | none => fallbackTableDescriptor

/-! ## Schema Introspector: sample data (`getSampleData`, part_000 lines 1759-1812) -/

/-- The clamp applied to the sample limit before string-interpolation:
`Math.max(1, Math.min(100, Math.floor(limit)))`.  `Math.floor` is the
identity on the integer limits this claim quantifies over. -/
def safeLimit (limit : Int) : Int :=
  max 1 (min 100 limit)

/-- The row-limiting sample query string
`` `SELECT * FROM ${tableName} LIMIT ${safeLimit}` ``. -/
def sampleSql (tableName : String) (limit : Int) : String :=
  "SELECT * FROM " ++ tableName ++ " LIMIT " ++ toString (safeLimit limit)

/-- The per-column distinct-values query string. -/
def distinctSql (tableName columnName : String) : String :=
  "SELECT DISTINCT " ++ columnName ++ " FROM " ++ tableName ++ " WHERE " ++
    columnName ++ " IS NOT NULL LIMIT 5"

/-- The dataset returned by the outer `catch` of `getSampleData`. -/
def fallbackSampleDataset : SampleDataset :=
  { sampleRecords := []
    distinctValues := [("fallback", [.str "Sample1", .str "Sample2", .str "Sample3"])]
    categoricalColumns := ["fallback"]
    totalSampleCount := 0 }

/-- `getSampleData`: fetch up to `safeLimit limit` sample rows, then up to 5
distinct values for each of at most 5 text-and-groupable non-id columns,
tolerating per-column failures with an empty set; on a failed sample fetch
return the fallback dataset.  `run` stubs `connection.execute` for the sample
query; `runDistinct` stubs it for the distinct queries with the projection
`row => row[col.name]` folded in. -/
def getSampleData (run : String → Except String (List DbRow))
    (runDistinct : String → Except String (List CellValue))
    (tableName : String) (availableColumns : List ColumnDescriptor)
    (limit : Int := 10) : SampleDataset :=
  match run (sampleSql tableName limit) with
  | .error _ => fallbackSampleDataset
  | .ok sampleRows =>
    let categoricalColumns := (availableColumns.filter (fun col =>
      col.canBeGrouped && col.isText && !(containsSubstr col.name "id"))).take 5
    let distinctValues := categoricalColumns.map (fun col =>
      (col.name,
        match runDistinct (distinctSql tableName col.name) with
        | .ok values => values
        | .error _ => []))
    { sampleRecords := sampleRows
      distinctValues := distinctValues
      categoricalColumns := categoricalColumns.map (·.name)
      totalSampleCount := sampleRows.length }

/-! ## Chart-Type / Column Analyzer
(`detectChartTypeFromQuery` part_000 lines 2529-2559; fast path 2830-2875;
slow path 2876-2994) -/

/-- The `chartPatterns` trigger-phrase mapping, in declaration order. -/
def chartPatterns : List (String × List String) :=
  [("bar", ["bar chart", "กราฟแท่ง", "แผนภูมิแท่ง", "แท่ง", "เปรียบเทียบ"]),
   ("column", ["column chart", "กราฟคอลัมน์", "แผนภูมิคอลัมน์", "คอลัมน์"]),
   ("line",
    ["line chart", "กราฟเส้น", "แผนภูมิเส้น", "เส้น", "การเปลี่ยนแปลง", "ตลอดเวลา",
     "ตามเวลา"]),
   ("pie", ["pie chart", "กราฟวงกลม", "แผนภูมิวงกลม", "สัดส่วน", "เปอร์เซ็นต์", "pie"]),
   ("donut", ["donut chart", "กราฟโดนัท", "แผนภูมิโดนัท", "donut"]),
   ("area", ["area chart", "กราฟพื้นที่", "แผนภูมิพื้นที่", "สะสม"]),
   ("scatter", ["scatter plot", "scatter chart", "กราฟกระจาย", "จุดกระจาย", "ความสัมพันธ์"]),
   ("histogram", ["histogram", "กราฟแจกแจง", "การกระจาย", "ฮิสโตแกรม"])]

/-- `detectChartTypeFromQuery`: lowercase the query, return the first chart
type (in declaration order) one of whose trigger phrases is a substring. -/
def detectChartTypeFromQuery (userQuery : String) : Option String :=
  let query := toLowerStr userQuery
  (chartPatterns.find? (fun p => p.2.any (fun pattern => containsSubstr query pattern))).map
    (·.1)

/-- The simplified `columnAnalysis` synthesized on the fast path (chart type
detected in the query, LLM analysis skipped). -/
def fastPathColumnAnalysis (detectedChartType : String)
    (availableColumns : List ColumnDescriptor) : ColumnAnalysis :=
  let relevantColumns := (availableColumns.filter (·.canBeGrouped)).take 2
  let primaryColumn :=
    match relevantColumns.head? with
    | some col => col.name
    | none => "country"
  { required_columns := some (relevantColumns.map (·.name))
    chart_type := detectedChartType
    alternative_charts :=
      (((availableColumns.filter (fun col =>
          col.suggestedChartTypes.contains detectedChartType)).map
            (·.suggestedChartTypes)).flatten.filter (· ≠ detectedChartType)).take 2
    data_aggregation := "count"
    x_axis := primaryColumn
    y_axis := "count" }

/-- The default analysis built when the slow-path JSON parse fails
(`parseError` branch, part_000 lines 2958-2981).  JS selects `x_axis` with
`filter(...)[0]?.name || 'country'`, so an empty name also falls back. -/
def defaultSlowAnalysis (availableColumns : List ColumnDescriptor) : ColumnAnalysis :=
  let defaultGroupableColumns :=
    ((availableColumns.filter (·.canBeGrouped)).take 2).map (·.name)
  let defaultXAxis :=
    match (availableColumns.filter (·.canBeGrouped)).head? with
    | some col => if col.name = "" then "country" else col.name
    | none => "country"
  { required_columns :=
      some (if defaultGroupableColumns.isEmpty then ["country", "medal"]
            else defaultGroupableColumns)
    chart_type := "bar"
    alternative_charts := ["column", "pie"]
    data_aggregation := "count"
    x_axis := defaultXAxis
    y_axis := "count" }

/-- The analyzer branch of the query-stream handler, summarised as a value:
fast path if a chart type is detected (no LLM call, flag `false`), otherwise
the slow LLM path (flag `true`); the slow-path LLM call at part_000 line 2943
is outside any `try`, so its failure propagates (`.error`).  A missing or
unparsable JSON object in a successful response is caught and replaced by
`defaultSlowAnalysis`. -/
def columnAnalysisStage (finalUserQuery : String)
    (availableColumns : List ColumnDescriptor)
    (analysisLlm : Except String String)
    (analysisDecode : String → Option ColumnAnalysis) :
    Except String (ColumnAnalysis × Bool) :=
  match detectChartTypeFromQuery finalUserQuery with
  | some detected => .ok (fastPathColumnAnalysis detected availableColumns, false)
  | none =>
    match analysisLlm with
    | .error e => .error e
    | .ok content =>
      match extractJsonCandidate content with
      | some jsonText =>
        match analysisDecode jsonText with
        | some parsed => .ok (parsed, true)
        | none => .ok (defaultSlowAnalysis availableColumns, true)
      | none => .ok (defaultSlowAnalysis availableColumns, true)

/-! ## SQL Synthesizer (`generateSQLQueryWithAI`, part_000 lines 1814-2022) -/

/-- Typed view of the JSON object parsed from the synthesizer's LLM response.
`sql_query` and `explanation` are mapped through without a default in the
source, the remaining fields with `|| default`. -/
structure ParsedSql where
  sql_query : String
  explanation : String
  query_reasoning : Option String := none
  columns_used : Option (List String) := none
  filters_applied : Option (List String) := none
  chart_suitability : Option String := none
  sample_data_insights : Option String := none
deriving DecidableEq, Repr

/-- `fallbackColumns[0] || 'country'`: the first required column, or
`'country'` when the list is empty (or its first entry is the JS-falsy empty
string). -/
def fallbackPrimaryColumn (fallbackColumns : List String) : String :=
  match fallbackColumns.head? with
  | some col => if col = "" then "country" else col
  | none => "country"

/-- The deterministic fallback SQL template (the template literal of
part_000 lines 2008-2014 after `.trim()`; inner newlines and indentation are
kept verbatim). -/
def fallbackSqlQuery (primaryColumn tableName : String) : String :=
  "SELECT " ++ primaryColumn ++ ", COUNT(*) as count\n      FROM " ++ tableName ++
    " \n      GROUP BY " ++ primaryColumn ++ "\n      ORDER BY count DESC\n      LIMIT 15"

/-- The fallback `SqlSynthesisResult` returned when LLM generation fails.
`columnAnalysis.required_columns || ['country', 'medal']` is modelled by
`getD`; control can only reach this point with the field present (see
`generateSQLQueryWithAI`), so the `getD` default is dead code kept for
fidelity. -/
def fallbackSqlResult (columnAnalysis : ColumnAnalysis) (tableName : String) :
    SqlSynthesisResult :=
  let fallbackColumns := columnAnalysis.required_columns.getD ["country", "medal"]
  let primaryColumn := fallbackPrimaryColumn fallbackColumns
  { sqlQuery := fallbackSqlQuery primaryColumn tableName
    explanation :=
      "Fallback query: นับจำนวนรายการตาม " ++ primaryColumn ++ " และเรียงลำดับจากมากไปน้อย"
    queryReasoning := "ใช้ fallback query เนื่องจาก AI generation ล้มเหลว"
    columnsUsed := [primaryColumn]
    filtersApplied := ["ไม่มี filter"]
    chartSuitability := "เหมาะสำหรับ " ++ columnAnalysis.chart_type ++ " chart พื้นฐาน"
    sampleDataInsights := "ใช้ fallback query ไม่ได้วิเคราะห์จากตัวอย่างข้อมูล" }

/-- `generateSQLQueryWithAI`.  Building `sqlPrompt` (line 1879) evaluates
`columnAnalysis.required_columns.join(', ')` before the `try`, so an absent
field raises a `TypeError` that propagates to the caller; afterwards every
failure (LLM error, no brace-delimited object, JSON parse error) is caught
and the deterministic fallback is returned.  `availableColumns` and
`sampleData` only shape the prompt, which the `llm` stub abstracts. -/
def generateSQLQueryWithAI (columnAnalysis : ColumnAnalysis) (userQuery : String)
    (availableColumns : List ColumnDescriptor) (sampleData : SampleDataset)
    (tableName : String) (llm : Except String String)
    (sqlDecode : String → Option ParsedSql) : Except String SqlSynthesisResult :=
  match columnAnalysis.required_columns with
  | none => .error "TypeError: Cannot read properties of undefined (reading join)"
  | some _ =>
    match llm with
    | .ok content =>
      match extractJsonCandidate content with
      | some jsonText =>
        match sqlDecode jsonText with
        | some parsed =>
          .ok { sqlQuery := parsed.sql_query
                explanation := parsed.explanation
                queryReasoning := parsed.query_reasoning.getD ""
                columnsUsed := parsed.columns_used.getD []
                filtersApplied := parsed.filters_applied.getD []
                chartSuitability := parsed.chart_suitability.getD ""
                sampleDataInsights := parsed.sample_data_insights.getD "" }
        | none => .ok (fallbackSqlResult columnAnalysis tableName)
      | none => .ok (fallbackSqlResult columnAnalysis tableName)
    | .error _ => .ok (fallbackSqlResult columnAnalysis tableName)

/-! ## Result Verifier (`verifyQueryResultsWithAI`, part_000 lines 2102-2217) -/

/-- Typed view of the JSON object parsed from the verifier's LLM response;
absent fields are `none`.  The `data_quality` sub-object is elided. -/
structure ParsedVerification where
  is_valid : Option Bool := none
  confidence_score : Option Int := none
  issues_found : Option (List String) := none
  suggestions : Option (List String) := none
  should_retry : Option Bool := none
  improved_sql : Option String := none
  reasoning : Option String := none
deriving DecidableEq, Repr

/-- The structural fallback verification (part_000 lines 2203-2216):
`isValid = rowCount > 0`, `confidenceScore = 70 if rows else 30`,
`shouldRetry = rowCount == 0`, `improvedSql = null`. -/
def fallbackVerification (rowCount : Nat) : VerificationResult :=
  { isValid := decide (0 < rowCount)
    confidenceScore := if 0 < rowCount then 70 else 30
    issuesFound := if rowCount = 0 then ["ไม่พบข้อมูล"] else []
    suggestions := if rowCount = 0 then ["ลองปรับเงื่อนไข WHERE หรือเปลี่ยน table"] else []
    shouldRetry := decide (rowCount = 0)
    improvedSql := none
    reasoning := "การตรวจสอบพื้นฐาน - AI verification ล้มเหลว" }

/-- `verifyQueryResultsWithAI`: ask the LLM to judge the executed results;
on success map the parsed fields through their `|| default`s (JS `x || null`
sends the falsy empty string to `null`); on LLM failure, missing
brace-delimited object, or parse failure return the structural fallback.
`originalPrompt`, `sqlQuery`, `columnAnalysis`, `availableColumns` and
`tableName` only shape the prompt, which the `llm` stub abstracts. -/
def verifyQueryResultsWithAI {Row : Type} (originalPrompt sqlQuery : String)
    (queryResults : List Row) (columnAnalysis : ColumnAnalysis)
    (availableColumns : List ColumnDescriptor) (tableName : String)
    (llm : Except String String)
    (verificationDecode : String → Option ParsedVerification) : VerificationResult :=
  match llm with
  | .ok content =>
    match extractJsonCandidate content with
    | some jsonText =>
      match verificationDecode jsonText with
      | some parsed =>
        { isValid := parsed.is_valid.getD false
          confidenceScore := parsed.confidence_score.getD 0
          issuesFound := parsed.issues_found.getD []
          suggestions := parsed.suggestions.getD []
          shouldRetry := parsed.should_retry.getD false
          improvedSql :=
            match parsed.improved_sql with
            | some sql => if sql = "" then none else some sql
            | none => none
          reasoning := parsed.reasoning.getD "" }
      | none => fallbackVerification queryResults.length
    | none => fallbackVerification queryResults.length
  | .error _ => fallbackVerification queryResults.length

/-! ## Prompt Refiner (`improveUserPrompt`, part_000 lines 2219-2330) -/

/-- Typed view of the JSON object parsed from the prompt-improvement LLM
response; absent fields are `none`. -/
structure ParsedImprovement where
  improved_prompt : Option String := none
  improvements_made : Option (List String) := none
  suggested_chart_type : Option String := none
  key_insights : Option String := none
  data_focus : Option String := none
  filter_suggestions : Option (List String) := none
  reasoning : Option String := none
deriving DecidableEq, Repr

/-- Return shape of `improveUserPrompt`. -/
structure PromptImprovement where
  improvedPrompt : String
  improvementsMade : List String
  suggestedChartType : Option String
  keyInsights : String
  dataFocus : String
  filterSuggestions : List String
  reasoning : String
  wasImproved : Bool
deriving DecidableEq, Repr

/-- The fallback returned when prompt improvement fails. -/
def fallbackImprovement (originalPrompt : String) : PromptImprovement :=
  { improvedPrompt := originalPrompt
    improvementsMade := ["ไม่สามารถปรับปรุงได้ - ใช้ prompt เดิม"]
    suggestedChartType := none
    keyInsights := "ไม่สามารถวิเคราะห์ได้"
    dataFocus := "ข้อมูลทั่วไป"
    filterSuggestions := []
    reasoning := "AI improvement ล้มเหลว"
    wasImproved := false }

/-- `improveUserPrompt`.  Note the asymmetry mirrored from the source:
`improvedPrompt` is `parsed.improved_prompt || originalPrompt` (the JS-falsy
absent or empty field yields the original), while `wasImproved` is
`parsed.improved_prompt !== originalPrompt` — computed from the raw field,
which is `true` when the field is absent.  `availableColumns`,
`availableTables` and `tableName` only shape the prompt, which the `llm`
stub abstracts. -/
def improveUserPrompt (originalPrompt : String)
    (availableColumns : List ColumnDescriptor)
    (availableTables : List TableDescriptor) (tableName : String)
    (llm : Except String String)
    (improvementDecode : String → Option ParsedImprovement) : PromptImprovement :=
  match llm with
  | .ok content =>
    match extractJsonCandidate content with
    | some jsonText =>
      match improvementDecode jsonText with
      | some parsed =>
        { improvedPrompt :=
            match parsed.improved_prompt with
            | some s => if s = "" then originalPrompt else s
            | none => originalPrompt
          improvementsMade := parsed.improvements_made.getD []
          suggestedChartType :=
            match parsed.suggested_chart_type with
            | some s => if s = "" then none else some s
            | none => none
          keyInsights := parsed.key_insights.getD ""
          dataFocus := parsed.data_focus.getD ""
          filterSuggestions := parsed.filter_suggestions.getD []
          reasoning := parsed.reasoning.getD ""
          wasImproved :=
            match parsed.improved_prompt with
            | some s => decide (s ≠ originalPrompt)
            | none => true }
      | none => fallbackImprovement originalPrompt
    | none => fallbackImprovement originalPrompt
  | .error _ => fallbackImprovement originalPrompt

/-! ## Retry Controller (`executeQueryWithRetry`, part_000 lines 2332-2453)

The loop's three awaited collaborators are stubbed per call: `synth` stands
for `generateSQLQueryWithAI` (receiving the attempt number and the previous
attempt's result, whose verification feedback is appended to the retry
prompt), `exec` for `executeQuery` (receiving the attempt number and the SQL
to run) and `verify` for `verifyQueryResultsWithAI` (total: it never
throws).  An `Except.error` models a thrown JS exception. -/

/-- Terminal artifact of the Retry Controller (spec §3 `RetryOutcome`,
extended with the `error` field of the failure branch). -/
structure RetryOutcome (Row : Type) where
  success : Bool
  queryResults : List Row
  sqlData : SqlSynthesisResult
  verification : VerificationResult
  attempt : Nat
  maxRetries : Nat
  error : Option String := none

/-- Per-call stubs of the retry loop's collaborators. -/
structure RetryEnv (Row : Type) where
  synth : Nat → Option (RetryOutcome Row) → Except String SqlSynthesisResult
  exec : Nat → String → Except String (List Row)
  verify : Nat → String → List Row → VerificationResult

/-- Instrumentation: how many times each collaborator was called. -/
structure RetryTrace where
  synthCalls : Nat
  execCalls : Nat
  verifyCalls : Nat
deriving DecidableEq, Repr

/-- The `sqlData` placeholder of the failure branch when no synthesis result
was ever produced (`currentSqlData || {...}`). -/
def placeholderSqlData : SqlSynthesisResult :=
  { sqlQuery := "SELECT \"Error\" as message"
    explanation := "เกิดข้อผิดพลาดในการสร้าง SQL" }

/-- The structured error result returned once all attempts failed
(part_000 lines 2430-2450); `e` is the last caught error. -/
def errorOutcome (Row : Type) (maxRetries attempt : Nat) (e : String)
    (currentSqlData : Option SqlSynthesisResult) : RetryOutcome Row :=
  { success := false
    queryResults := []
    sqlData := currentSqlData.getD placeholderSqlData
    verification :=
      { isValid := false
        confidenceScore := 0
        issuesFound := ["เกิดข้อผิดพลาด: " ++ e]
        suggestions := ["ลองเปลี่ยนคำถามหรือตรวจสอบข้อมูล"]
        shouldRetry := false
        improvedSql := none
        reasoning := "เกิดข้อผิดพลาดในการ execute query หลายครั้ง" }
    attempt := attempt + 1
    maxRetries := maxRetries
    error := some e }

/-- One pass of the `while (attempt <= maxRetries)` loop, with explicit
fuel (the loop advances `attempt` on every continue, so
`fuel = maxRetries + 1 - attempt` always suffices; exhausted fuel returns
`none`, the JS `undefined` of a fallen-through loop).  The state threads the
loop-scope variables `lastResult` and `currentSqlData` (`lastError` is only
read in the failure branch, where it equals the just-caught error, so it is
not threaded). -/
def retryLoop {Row : Type} (env : RetryEnv Row) (maxRetries : Nat) :
    Nat → Nat → Option (RetryOutcome Row) → Option SqlSynthesisResult → RetryTrace →
    Option (RetryOutcome Row) × RetryTrace
  | 0, _, _, _, tr => (none, tr)
  | fuel + 1, attempt, lastResult, currentSqlData, tr =>
    if attempt ≤ maxRetries then
      let tr := { tr with synthCalls := tr.synthCalls + 1 }
      match env.synth attempt lastResult with
      | .error e =>
        if attempt < maxRetries then
          retryLoop env maxRetries fuel (attempt + 1) lastResult currentSqlData tr
        else (some (errorOutcome Row maxRetries attempt e currentSqlData), tr)
      | .ok sqlData =>
        let tr := { tr with execCalls := tr.execCalls + 1 }
        match env.exec attempt sqlData.sqlQuery with
        | .error e =>
          if attempt < maxRetries then
            retryLoop env maxRetries fuel (attempt + 1) lastResult (some sqlData) tr
          else (some (errorOutcome Row maxRetries attempt e (some sqlData)), tr)
        | .ok queryResults =>
          let tr := { tr with verifyCalls := tr.verifyCalls + 1 }
          let verification := env.verify attempt sqlData.sqlQuery queryResults
          let result : RetryOutcome Row :=
            { success := true
              queryResults := queryResults
              sqlData := sqlData
              verification := verification
              attempt := attempt + 1
              maxRetries := maxRetries
              error := none }
          if verification.isValid && decide (70 ≤ verification.confidenceScore) then
            (some result, tr)
          else if verification.shouldRetry && decide (attempt < maxRetries) then
            retryLoop env maxRetries fuel (attempt + 1) (some result) (some sqlData) tr
          else (some result, tr)
    else (none, tr)

/-- `executeQueryWithRetry`: run the loop from attempt 0 with enough fuel for
its `maxRetries + 1` iterations. -/
def executeQueryWithRetry {Row : Type} (env : RetryEnv Row)
    (maxRetries : Nat := 2) : Option (RetryOutcome Row) × RetryTrace :=
  retryLoop env maxRetries (maxRetries + 1) 0 none none ⟨0, 0, 0⟩

/-! ## Store listing and column introspection
(`getAvailableTables` part_000 lines 1652-1677; `getAvailableColumns`
lines 2605-2677) -/

/-- `getAvailableTables`: map the `INFORMATION_SCHEMA` rows
`(table_name, table_comment)` to descriptors, defaulting a missing or empty
(JS-falsy) comment; a store failure yields the Olympic fallback row. -/
def getAvailableTables (store : Except String (List (String × Option String))) :
    List TableDescriptor :=
  match store with
  | .ok rows =>
    rows.map (fun row =>
      { name := row.1
        comment :=
          match row.2 with
          | some c => if c = "" then "ไม่มีคำอธิบาย" else c
          | none => "ไม่มีคำอธิบาย" })
  | .error _ => [{ name := "olympic_medalists", comment := "ข้อมูลเหรียญโอลิมปิก" }]

/-- The generic fallback descriptor set of `getAvailableColumns`
(part_000 lines 2615-2676). -/
def fallbackColumnDescriptors : List ColumnDescriptor :=
  [{ name := "id", type := "int", comment := "Primary key identifier",
     isNumeric := true, isDate := false, isText := false, canBeGrouped := false,
     canBeAggregated := false, suggestedChartTypes := ["scatter"] },
   { name := "name", type := "varchar", comment := "Name field",
     isNumeric := false, isDate := false, isText := true, canBeGrouped := true,
     canBeAggregated := false, suggestedChartTypes := ["bar", "column", "pie"] },
   { name := "category", type := "varchar", comment := "Category field",
     isNumeric := false, isDate := false, isText := true, canBeGrouped := true,
     canBeAggregated := false, suggestedChartTypes := ["pie", "donut", "bar"] },
   { name := "value", type := "int", comment := "Numeric value field",
     isNumeric := true, isDate := false, isText := false, canBeGrouped := false,
     canBeAggregated := true, suggestedChartTypes := ["histogram", "scatter"] },
   { name := "created_at", type := "datetime", comment := "Creation timestamp",
     isNumeric := false, isDate := true, isText := false, canBeGrouped := true,
     canBeAggregated := false, suggestedChartTypes := ["line", "area"] }]

/-- `getAvailableColumns`: the dynamic descriptors when non-empty, otherwise
the generic fallback.  `analyzeTableStructure`'s store round-trip and
per-column flag derivation are abstracted into the stub (its `catch` returns
`[]`, modelled by `.error`); no claim depends on the derivation itself. -/
def getAvailableColumns (introspection : Except String (List ColumnDescriptor)) :
    List ColumnDescriptor :=
  let dynamicColumns :=
    match introspection with
    | .ok cols => cols
    | .error _ => []
  if dynamicColumns.isEmpty then fallbackColumnDescriptors else dynamicColumns

/-! ## Query-stream handler (`app.post('/api/query-stream')`,
part_000 lines 2692-3340) -/

/-- An SSE notification, reduced to what the error-handling claims observe:
its kind and, for statuses, the reported progress; for the final `result`
payload, the embedded `query_execution.success` flag. -/
inductive StreamEvent where
  | status (progress : Nat)
  | result (querySuccess : Bool)
  | done
  | error
deriving DecidableEq, Repr

/-- Is this event the `result` notification carrying the chart payload? -/
def isResultEvent : StreamEvent → Bool
  | .result _ => true
  | _ => false

/-- The mock rows substituted when the retry controller reports failure
(part_000 lines 3130-3136). -/
def mockQueryResult : List DbRow :=
  [[("label", .str "USA"), ("count", .num 300)],
   [("label", .str "China"), ("count", .num 250)],
   [("label", .str "Japan"), ("count", .num 150)],
   [("label", .str "Great Britain"), ("count", .num 120)],
   [("label", .str "Germany"), ("count", .num 100)]]

/-- All of the request's stubbed effects.  `sqlLlm`/`sqlDecode` feed the
direct `generateSQLQueryWithAI` call at line 3027; the retry loop's three
collaborators are stubbed by `retryEnv` (each LLM/store round-trip is a
separate call, hence a separate stub). -/
structure HandlerEnv where
  tablesStore : Except String (List (String × Option String))
  columnsIntrospection : Except String (List ColumnDescriptor)
  improveLlm : Except String String
  improvementDecode : String → Option ParsedImprovement
  analysisLlm : Except String String
  analysisDecode : String → Option ColumnAnalysis
  sampleRun : String → Except String (List DbRow)
  sampleDistinctRun : String → Except String (List CellValue)
  sqlLlm : Except String String
  sqlDecode : String → Option ParsedSql
  retryEnv : RetryEnv DbRow

/-- The status notifications always emitted before the analyzer branch
(progress 20, 50, 55, 58, 59, then 60 for the improvement outcome and 60 for
the database status). -/
def initialStatusEvents : List StreamEvent :=
  [.status 20, .status 50, .status 55, .status 58, .status 59, .status 60, .status 60]

/-- The tail of the handler after a column analysis has been obtained:
sample fetch (status 76, 78), direct SQL generation (status 80; an escaping
exception reaches the outer catch, which emits the `error` notification),
statuses 83/85/85, the retry controller, the success/failure statuses, and
the final `result`(with the embedded `query_execution.success` flag)/`done`
notifications.  A `none` retry outcome (fallen-through loop, unreachable
with adequate fuel) lands in the JS falsy else-branch with mock data. -/
def handlerAfterAnalysis (env : HandlerEnv) (tableName finalUserQuery : String)
    (availableColumns : List ColumnDescriptor) (columnAnalysis : ColumnAnalysis)
    (acc : List StreamEvent) : List StreamEvent :=
  let sampleData :=
    getSampleData env.sampleRun env.sampleDistinctRun tableName availableColumns 10
  let acc := acc ++ [.status 76, .status 78, .status 80]
  match generateSQLQueryWithAI columnAnalysis finalUserQuery availableColumns sampleData
      tableName env.sqlLlm env.sqlDecode with
  | .error _ => acc ++ [.error]
  | .ok _sqlData =>
    let acc := acc ++ [.status 83, .status 85, .status 85]
    match executeQueryWithRetry env.retryEnv 2 with
    | (some outcome, _) =>
      if outcome.success then
        let acc := acc ++ [.status 90] ++
          (if 1 < outcome.attempt then [.status 92] else [])
        acc ++ [.status 95, .result true, .done]
      else
        acc ++ [.status 90, .status 95, .result false, .done]
    | (none, _) => acc ++ [.status 90, .status 95, .result false, .done]

/-- The `/api/query-stream` handler body.  Every stage before the analyzer is
total (each degrades internally), so the outer `catch` — which emits the
protocol-level `error` notification instead of a `result` — is reachable
exactly from the analyzer region: the slow-path LLM call at line 2943 is
outside any `try`, and the slow-path status message at line 2989 reads
`columnAnalysis.required_columns.join(...)` from the raw parsed JSON, which
throws when the field is absent. -/
def queryStreamHandler (env : HandlerEnv) (userQuery : String) : List StreamEvent :=
  let availableTables := getAvailableTables env.tablesStore
  let bestTable := detectBestTable userQuery availableTables
  let availableColumns := getAvailableColumns env.columnsIntrospection
  let promptImprovement := improveUserPrompt userQuery availableColumns availableTables
    bestTable.name env.improveLlm env.improvementDecode
  let finalUserQuery := promptImprovement.improvedPrompt
  match detectChartTypeFromQuery finalUserQuery with
  | some detected =>
    handlerAfterAnalysis env bestTable.name finalUserQuery availableColumns
      (fastPathColumnAnalysis detected availableColumns)
      (initialStatusEvents ++ [.status 70, .status 75])
  | none =>
    match env.analysisLlm with
    | .error _ => initialStatusEvents ++ [.status 65, .error]
    | .ok content =>
      let columnAnalysis :=
        match extractJsonCandidate content with
        | some jsonText =>
          match env.analysisDecode jsonText with
          | some parsed => parsed
          | none => defaultSlowAnalysis availableColumns
        | none => defaultSlowAnalysis availableColumns
      match columnAnalysis.required_columns with
      | none => initialStatusEvents ++ [.status 65, .error]
      | some _ =>
        handlerAfterAnalysis env bestTable.name finalUserQuery availableColumns
          columnAnalysis (initialStatusEvents ++ [.status 65, .status 75])

/-- Does the analyzer region of the handler complete without an exception?
(fast path taken, or the analysis LLM call succeeds and — when its JSON
parses — the parsed analysis carries `required_columns`). -/
def analysisStageCompletes (env : HandlerEnv) (userQuery : String) : Bool :=
  let availableTables := getAvailableTables env.tablesStore
  let bestTable := detectBestTable userQuery availableTables
  let availableColumns := getAvailableColumns env.columnsIntrospection
  let promptImprovement := improveUserPrompt userQuery availableColumns availableTables
    bestTable.name env.improveLlm env.improvementDecode
  match detectChartTypeFromQuery promptImprovement.improvedPrompt with
  | some _ => true
  | none =>
    match env.analysisLlm with
    | .error _ => false
    | .ok content =>
      match extractJsonCandidate content with
      | some jsonText =>
        match env.analysisDecode jsonText with
        | some parsed => parsed.required_columns.isSome
        | none => true
      | none => true

/-! ## Concrete stub instantiations used to exhibit the theorems on inputs -/

/-- A concrete synthesis result for stubbed synthesizers. -/
def witnessSqlData : SqlSynthesisResult :=
  { sqlQuery := "SELECT country, COUNT(*) as count FROM olympic_medalists GROUP BY country"
    explanation := "" }

/-- A verifier answer with `confidenceScore = 40`, `shouldRetry = true`. -/
def lowConfidenceVerification : VerificationResult :=
  { isValid := false, confidenceScore := 40, issuesFound := [], suggestions := []
    shouldRetry := true, improvedSql := none, reasoning := "" }

/-- A verifier answer accepted on the spot (`isValid`, score 95). -/
def acceptingVerification : VerificationResult :=
  { isValid := true, confidenceScore := 95, issuesFound := [], suggestions := []
    shouldRetry := false, improvedSql := none, reasoning := "" }

/-- Retry stubs: synthesizer and executor succeed, verifier always answers
`confidenceScore = 40, shouldRetry = true`. -/
def envLowConfidence : RetryEnv Unit :=
  { synth := fun _ _ => .ok witnessSqlData
    exec := fun _ _ => .ok []
    verify := fun _ _ _ => lowConfidenceVerification }

/-- Retry stubs: first attempt is accepted outright. -/
def envAccepting : RetryEnv Unit :=
  { synth := fun _ _ => .ok witnessSqlData
    exec := fun _ _ => .ok [()]
    verify := fun _ _ _ => acceptingVerification }

/-- Retry stubs: the executor (and here also the synthesizer) always raises. -/
def envExecutorFailing : RetryEnv Unit :=
  { synth := fun _ _ => .error "generation failed"
    exec := fun _ _ => .error "ER_NO_SUCH_TABLE"
    verify := fun _ _ _ => fallbackVerification 0 }

/-- A column analysis whose raw JSON lacked `required_columns`. -/
def caNoRequiredColumns : ColumnAnalysis :=
  { required_columns := none, chart_type := "bar", alternative_charts := []
    data_aggregation := "count", x_axis := "country", y_axis := "count" }

/-- A column analysis with `required_columns` present but empty. -/
def caEmptyRequiredColumns : ColumnAnalysis :=
  { required_columns := some [], chart_type := "bar", alternative_charts := []
    data_aggregation := "count", x_axis := "country", y_axis := "count" }

/-- A request environment in which every store round-trip and every LLM call
fails. -/
def envTotalFailure : HandlerEnv :=
  { tablesStore := .error "connect ECONNREFUSED"
    columnsIntrospection := .error "connect ECONNREFUSED"
    improveLlm := .error "fetch failed"
    improvementDecode := fun _ => none
    analysisLlm := .error "fetch failed"
    analysisDecode := fun _ => none
    sampleRun := fun _ => .error "connect ECONNREFUSED"
    sampleDistinctRun := fun _ => .error "connect ECONNREFUSED"
    sqlLlm := .error "fetch failed"
    sqlDecode := fun _ => none
    retryEnv :=
      { synth := fun _ _ => .error "fetch failed"
        exec := fun _ _ => .error "connect ECONNREFUSED"
        verify := fun _ _ _ => fallbackVerification 0 } }

/-! # Theorems -/

/-- C4: for every integer `limit`, `getSampleData` embeds the clamped value
`safeLimit limit ∈ [1, 100]` into the row-limiting clause `sampleSql`; in
particular `limit = 1000` requests at most 100 rows and `limit = 0` requests
at least 1 row.  The last conjunct exhibits that the store request
`getSampleData` issues is exactly `sampleSql tableName limit`: a stub
answering only that query string is the one consulted. -/
theorem getSampleData_limit_clamped (limit : Int) (tableName : String) :
    1 ≤ safeLimit limit ∧ safeLimit limit ≤ 100 ∧
    sampleSql tableName limit =
      "SELECT * FROM " ++ tableName ++ " LIMIT " ++ toString (safeLimit limit) ∧
    safeLimit 1000 = 100 ∧ safeLimit 0 = 1 ∧
    ∀ (rows : List DbRow) (runDistinct : String → Except String (List CellValue))
      (cols : List ColumnDescriptor),
      (getSampleData
        (fun q => if q = sampleSql tableName limit then .ok rows else .error "unexpected query")
        runDistinct tableName cols limit).sampleRecords = rows := by
  refine ⟨le_max_left 1 _, max_le (by norm_num) (min_le_left _ _), rfl,
    by decide, by decide, ?_⟩
  intro rows runDistinct cols
  simp [getSampleData]

/-- C6: whenever the verifier's LLM call fails, or its response contains no
brace-delimited object, or the extracted object does not parse,
`verifyQueryResultsWithAI` returns (never raises) the structural fallback:
`isValid = (rows > 0)`, `confidenceScore = 70 if rows else 30`,
`shouldRetry = (rows = 0)`, `improvedSql = none`. -/
theorem verifyQueryResults_fallback_on_failure {Row : Type}
    (originalPrompt sqlQuery : String) (queryResults : List Row)
    (columnAnalysis : ColumnAnalysis) (availableColumns : List ColumnDescriptor)
    (tableName : String) (llm : Except String String)
    (verificationDecode : String → Option ParsedVerification)
    (h : (∃ e, llm = .error e) ∨
      ∃ content, llm = .ok content ∧
        (extractJsonCandidate content = none ∨
          ∃ jsonText, extractJsonCandidate content = some jsonText ∧
            verificationDecode jsonText = none)) :
    verifyQueryResultsWithAI originalPrompt sqlQuery queryResults columnAnalysis
        availableColumns tableName llm verificationDecode =
      fallbackVerification queryResults.length ∧
    (verifyQueryResultsWithAI originalPrompt sqlQuery queryResults columnAnalysis
        availableColumns tableName llm verificationDecode).isValid =
      decide (0 < queryResults.length) ∧
    (verifyQueryResultsWithAI originalPrompt sqlQuery queryResults columnAnalysis
        availableColumns tableName llm verificationDecode).confidenceScore =
      (if 0 < queryResults.length then 70 else 30) ∧
    (verifyQueryResultsWithAI originalPrompt sqlQuery queryResults columnAnalysis
        availableColumns tableName llm verificationDecode).shouldRetry =
      decide (queryResults.length = 0) ∧
    (verifyQueryResultsWithAI originalPrompt sqlQuery queryResults columnAnalysis
        availableColumns tableName llm verificationDecode).improvedSql = none := by
  have heq : verifyQueryResultsWithAI originalPrompt sqlQuery queryResults columnAnalysis
      availableColumns tableName llm verificationDecode =
      fallbackVerification queryResults.length := by
    obtain ⟨e, rfl⟩ | ⟨content, rfl, hnone | ⟨jsonText, hj, hd⟩⟩ := h
    · rfl
    · simp [verifyQueryResultsWithAI, hnone]
    · simp [verifyQueryResultsWithAI, hj, hd]
  refine ⟨heq, ?_, ?_, ?_, ?_⟩ <;> rw [heq] <;> simp [fallbackVerification]

/-- C6, exhibited: an LLM network failure with one result row yields the
structural fallback. -/
theorem verifyQueryResults_fallback_on_failure_witness :
    verifyQueryResultsWithAI "q" "SELECT 1" [()] caEmptyRequiredColumns [] "olympic_medalists"
        (.error "fetch failed") (fun _ => none) =
      fallbackVerification 1 ∧
    (verifyQueryResultsWithAI "q" "SELECT 1" [()] caEmptyRequiredColumns [] "olympic_medalists"
        (.error "fetch failed") (fun _ => none)).isValid = decide (0 < [()].length) ∧
    (verifyQueryResultsWithAI "q" "SELECT 1" [()] caEmptyRequiredColumns [] "olympic_medalists"
        (.error "fetch failed") (fun _ => none)).confidenceScore =
      (if 0 < [()].length then 70 else 30) ∧
    (verifyQueryResultsWithAI "q" "SELECT 1" [()] caEmptyRequiredColumns [] "olympic_medalists"
        (.error "fetch failed") (fun _ => none)).shouldRetry = decide ([()].length = 0) ∧
    (verifyQueryResultsWithAI "q" "SELECT 1" [()] caEmptyRequiredColumns [] "olympic_medalists"
        (.error "fetch failed") (fun _ => none)).improvedSql = none :=
  verifyQueryResults_fallback_on_failure "q" "SELECT 1" [()] caEmptyRequiredColumns []
    "olympic_medalists" (.error "fetch failed") (fun _ => none)
    (Or.inl ⟨"fetch failed", rfl⟩)

/-- C10: if the LLM response parses to an object lacking `improved_prompt`,
`improveUserPrompt` returns the original prompt as `improvedPrompt` yet
reports `wasImproved = true` (the flag compares the raw, possibly absent,
field with the original prompt — not the returned value). -/
theorem improveUserPrompt_missing_field_wasImproved (originalPrompt content jsonText : String)
    (availableColumns : List ColumnDescriptor) (availableTables : List TableDescriptor)
    (tableName : String) (improvementDecode : String → Option ParsedImprovement)
    (parsed : ParsedImprovement)
    (hextract : extractJsonCandidate content = some jsonText)
    (hdecode : improvementDecode jsonText = some parsed)
    (hmissing : parsed.improved_prompt = none) :
    (improveUserPrompt originalPrompt availableColumns availableTables tableName
        (.ok content) improvementDecode).improvedPrompt = originalPrompt ∧
    (improveUserPrompt originalPrompt availableColumns availableTables tableName
        (.ok content) improvementDecode).wasImproved = true := by
  simp [improveUserPrompt, hextract, hdecode, hmissing]

/-- C10, exhibited at the response `"\x7b\x7d"` parsed to the empty object. -/
theorem improveUserPrompt_missing_field_wasImproved_witness :
    (improveUserPrompt "เหรียญของไทย" [] [] "olympic_medalists" (.ok "\x7b\x7d")
        (fun _ => some {})).improvedPrompt = "เหรียญของไทย" ∧
    (improveUserPrompt "เหรียญของไทย" [] [] "olympic_medalists" (.ok "\x7b\x7d")
        (fun _ => some {})).wasImproved = true :=
  improveUserPrompt_missing_field_wasImproved "เหรียญของไทย" "\x7b\x7d" "\x7b\x7d" [] []
    "olympic_medalists" (fun _ => some {}) {} (by decide) rfl rfl

/-- C7, counterexample: with `required_columns` absent and the LLM call
failing, `generateSQLQueryWithAI` does not return the deterministic fallback
— it raises (the prompt construction at part_000 line 1879 reads
`columnAnalysis.required_columns.join(', ')` before the `try`). -/
theorem generateSQL_missing_required_columns_raises :
    generateSQLQueryWithAI caNoRequiredColumns "เหรียญของไทย" [] fallbackSampleDataset
        "olympic_medalists" (.error "fetch failed") (fun _ => none) =
      .error "TypeError: Cannot read properties of undefined (reading join)" := rfl

/-- C7, amended: whenever `required_columns` is present and the synthesizer's
LLM call fails or its response contains no parsable JSON object,
`generateSQLQueryWithAI` returns the deterministic fallback whose `sqlQuery`
is the group-by-count template over the first required column (or `country`
when the list is empty). -/
theorem generateSQL_fallback_template (columnAnalysis : ColumnAnalysis)
    (requiredColumns : List String) (userQuery : String)
    (availableColumns : List ColumnDescriptor) (sampleData : SampleDataset)
    (tableName : String) (llm : Except String String)
    (sqlDecode : String → Option ParsedSql)
    (hreq : columnAnalysis.required_columns = some requiredColumns)
    (h : (∃ e, llm = .error e) ∨
      ∃ content, llm = .ok content ∧
        (extractJsonCandidate content = none ∨
          ∃ jsonText, extractJsonCandidate content = some jsonText ∧
            sqlDecode jsonText = none)) :
    generateSQLQueryWithAI columnAnalysis userQuery availableColumns sampleData tableName
        llm sqlDecode = .ok (fallbackSqlResult columnAnalysis tableName) ∧
    (fallbackSqlResult columnAnalysis tableName).sqlQuery =
      "SELECT " ++ fallbackPrimaryColumn requiredColumns ++
        ", COUNT(*) as count\n      FROM " ++ tableName ++ " \n      GROUP BY " ++
        fallbackPrimaryColumn requiredColumns ++
        "\n      ORDER BY count DESC\n      LIMIT 15" ∧
    (requiredColumns = [] → fallbackPrimaryColumn requiredColumns = "country") := by
  refine ⟨?_, by simp [fallbackSqlResult, fallbackSqlQuery, hreq], ?_⟩
  · obtain ⟨e, rfl⟩ | ⟨content, rfl, hnone | ⟨jsonText, hj, hd⟩⟩ := h
    · simp [generateSQLQueryWithAI, hreq]
    · simp [generateSQLQueryWithAI, hreq, hnone]
    · simp [generateSQLQueryWithAI, hreq, hj, hd]
  · rintro rfl
    rfl

/-- C7, amended, exhibited: empty `required_columns` and a failed LLM call
produce the template over `country`. -/
theorem generateSQL_fallback_template_witness :
    generateSQLQueryWithAI caEmptyRequiredColumns "เหรียญของไทย" [] fallbackSampleDataset
        "olympic_medalists" (.error "fetch failed") (fun _ => none) =
      .ok (fallbackSqlResult caEmptyRequiredColumns "olympic_medalists") ∧
    (fallbackSqlResult caEmptyRequiredColumns "olympic_medalists").sqlQuery =
      "SELECT " ++ fallbackPrimaryColumn [] ++
        ", COUNT(*) as count\n      FROM " ++ "olympic_medalists" ++ " \n      GROUP BY " ++
        fallbackPrimaryColumn [] ++ "\n      ORDER BY count DESC\n      LIMIT 15" ∧
    (([] : List String) = [] → fallbackPrimaryColumn [] = "country") :=
  generateSQL_fallback_template caEmptyRequiredColumns [] "เหรียญของไทย" []
    fallbackSampleDataset "olympic_medalists" (.error "fetch failed") (fun _ => none) rfl
    (Or.inl ⟨"fetch failed", rfl⟩)

/-- Helper: a list containing an element satisfying `p` has a `find?` hit. -/
theorem find_of_exists {α : Type} (p : α → Bool) :
    ∀ (l : List α), (∃ x ∈ l, p x = true) → ∃ a, l.find? p = some a := by
  intro l
  induction l with
  | nil => rintro ⟨x, hx, -⟩; cases hx
  | cons y ys ih =>
    rintro ⟨x, hx, hpx⟩
    by_cases hy : p y
    · exact ⟨y, by simp [List.find?, hy]⟩
    · rcases List.mem_cons.mp hx with rfl | hx'
      · exact absurd hpx hy
      · obtain ⟨a, ha⟩ := ih ⟨x, hx', hpx⟩
        exact ⟨a, by simp [List.find?, hy, ha]⟩

/-- Helper: `find?` returns the first hit — everything before it fails `p`. -/
theorem find_first_decomp {α : Type} (p : α → Bool) :
    ∀ (l : List α) (a : α), l.find? p = some a →
      ∃ pre post, l = pre ++ a :: post ∧ p a = true ∧ ∀ b ∈ pre, p b = false := by
  intro l
  induction l with
  | nil => intro a h; simp [List.find?] at h
  | cons y ys ih =>
    intro a h
    by_cases hy : p y
    · rw [List.find?_cons_of_pos _ hy] at h
      cases h
      exact ⟨[], ys, rfl, hy, by simp⟩
    · rw [List.find?_cons_of_neg _ hy] at h
      obtain ⟨pre, post, hdecomp, hpa, hpre⟩ := ih a h
      refine ⟨y :: pre, post, by rw [hdecomp]; rfl, hpa, ?_⟩
      intro b hb
      rcases List.mem_cons.mp hb with rfl | hb'
      · exact Bool.eq_false_iff.mpr hy
      · exact hpre b hb'

/-- C5: every query whose lowercased text contains a recognized trigger
phrase makes the analyzer take the fast path: `detectChartTypeFromQuery`
returns the first (declaration-order) chart type with a matching phrase, the
LLM chart/column-analysis call is not made (the stage returns the fast-path
analysis with the `usedLlm` flag `false` without consulting `analysisLlm`),
and the synthesized analysis has `data_aggregation = "count"`,
`y_axis = "count"` and `required_columns` drawn from at most 2 groupable
columns. -/
theorem detectChartType_fast_path_no_llm (userQuery : String)
    (availableColumns : List ColumnDescriptor) (analysisLlm : Except String String)
    (analysisDecode : String → Option ColumnAnalysis)
    (h : ∃ p ∈ chartPatterns, ∃ pattern ∈ p.2,
      containsSubstr (toLowerStr userQuery) pattern = true) :
    ∃ detected,
      detectChartTypeFromQuery userQuery = some detected ∧
      (∃ pre entry post, chartPatterns = pre ++ entry :: post ∧ entry.1 = detected ∧
        (∃ pattern ∈ entry.2, containsSubstr (toLowerStr userQuery) pattern = true) ∧
        ∀ q ∈ pre, ∀ pattern ∈ q.2, containsSubstr (toLowerStr userQuery) pattern = false) ∧
      columnAnalysisStage userQuery availableColumns analysisLlm analysisDecode =
        .ok (fastPathColumnAnalysis detected availableColumns, false) ∧
      (fastPathColumnAnalysis detected availableColumns).data_aggregation = "count" ∧
      (fastPathColumnAnalysis detected availableColumns).y_axis = "count" ∧
      ∃ names,
        (fastPathColumnAnalysis detected availableColumns).required_columns = some names ∧
        names.length ≤ 2 ∧
        ∀ nm ∈ names, ∃ col ∈ availableColumns, col.canBeGrouped = true ∧ col.name = nm := by
  obtain ⟨entry0, hmem, pattern0, hpat0, hsub0⟩ := h
  obtain ⟨entry, hfind⟩ := find_of_exists
    (fun p => p.2.any (fun pattern => containsSubstr (toLowerStr userQuery) pattern))
    chartPatterns ⟨entry0, hmem, by simpa using ⟨pattern0, hpat0, hsub0⟩⟩
  obtain ⟨pre, post, hdecomp, hpentry, hpre⟩ := find_first_decomp _ chartPatterns entry hfind
  have hdet : detectChartTypeFromQuery userQuery = some entry.1 := by
    simp [detectChartTypeFromQuery, hfind]
  refine ⟨entry.1, hdet, ⟨pre, entry, post, hdecomp, rfl, by simpa using hpentry, ?_⟩,
    by simp [columnAnalysisStage, hdet], rfl, rfl, ?_⟩
  · intro q hq pattern hpat
    have hq2 := hpre q hq
    rw [List.any_eq_false] at hq2
    simpa using hq2 pattern hpat
  · refine ⟨_, rfl, ?_, ?_⟩
    · simp only [fastPathColumnAnalysis, List.length_map, List.length_take]
      omega
    · intro nm hnm
      simp only [fastPathColumnAnalysis, List.mem_map] at hnm
      obtain ⟨col, hcol, rfl⟩ := hnm
      have hcol' : col ∈ availableColumns.filter (·.canBeGrouped) :=
        List.take_subset 2 _ hcol
      have hmf := List.mem_filter.mp hcol'
      exact ⟨col, hmf.1, by simpa using hmf.2, rfl⟩

/-- C5, exhibited at the query `"show a pie chart"` against an empty column
list, with a failing analysis LLM (never consulted). -/
theorem detectChartType_fast_path_no_llm_witness :
    ∃ detected,
      detectChartTypeFromQuery "show a pie chart" = some detected ∧
      (∃ pre entry post, chartPatterns = pre ++ entry :: post ∧ entry.1 = detected ∧
        (∃ pattern ∈ entry.2,
          containsSubstr (toLowerStr "show a pie chart") pattern = true) ∧
        ∀ q ∈ pre, ∀ pattern ∈ q.2,
          containsSubstr (toLowerStr "show a pie chart") pattern = false) ∧
      columnAnalysisStage "show a pie chart" [] (.error "fetch failed") (fun _ => none) =
        .ok (fastPathColumnAnalysis detected [], false) ∧
      (fastPathColumnAnalysis detected []).data_aggregation = "count" ∧
      (fastPathColumnAnalysis detected []).y_axis = "count" ∧
      ∃ names, (fastPathColumnAnalysis detected []).required_columns = some names ∧
        names.length ≤ 2 ∧
        ∀ nm ∈ names, ∃ col ∈ ([] : List ColumnDescriptor),
          col.canBeGrouped = true ∧ col.name = nm :=
  detectChartType_fast_path_no_llm "show a pie chart" [] (.error "fetch failed")
    (fun _ => none) (by decide)

/-- Helper: inserting into an empty list puts the element at the head. -/
theorem insertByScoreDesc_head_nil (x : ScoredTable) :
    (insertByScoreDesc x []).head? = some x := rfl

/-- Helper: the head of an insertion is the incoming element when its score
matches or beats the old head's, else the old head. -/
theorem insertByScoreDesc_head_cons (x : ScoredTable) (l : List ScoredTable)
    (y : ScoredTable) (hy : l.head? = some y) :
    (insertByScoreDesc x l).head? = some (if y.score ≤ x.score then x else y) := by
  cases l with
  | nil => cases hy
  | cons z zs =>
    obtain rfl : z = y := by simpa using hy
    by_cases h : z.score ≤ x.score <;> simp [insertByScoreDesc, h]

/-- Helper: for a non-empty table list, the head of the stable descending
sort of the scored tables is the earliest table attaining the maximal
score. -/
theorem sortByScoreDesc_first_max (query : String) :
    ∀ (ts : List TableDescriptor), ts ≠ [] →
      ∃ pre best post,
        ts = pre ++ best :: post ∧
        (sortByScoreDesc (ts.map (fun t => ScoredTable.mk t (tableScore query t)))).head? =
          some (ScoredTable.mk best (tableScore query best)) ∧
        (∀ u ∈ ts, tableScore query u ≤ tableScore query best) ∧
        (∀ u ∈ pre, tableScore query u < tableScore query best) := by
  intro ts
  induction ts with
  | nil => intro h; exact absurd rfl h
  | cons x xs ih =>
    intro _
    cases xs with
    | nil =>
      refine ⟨[], x, [], rfl, rfl, ?_, by simp⟩
      intro u hu
      rw [List.mem_singleton.mp hu]
    | cons y ys =>
      obtain ⟨pre, best, post, hdecomp, hhead, hmax, hpre⟩ := ih (by simp)
      have hsortcons :
          sortByScoreDesc (((x :: y :: ys).map
              (fun t => ScoredTable.mk t (tableScore query t)))) =
            insertByScoreDesc (ScoredTable.mk x (tableScore query x))
              (sortByScoreDesc ((y :: ys).map
                (fun t => ScoredTable.mk t (tableScore query t)))) := rfl
      by_cases hcmp : tableScore query best ≤ tableScore query x
      · refine ⟨[], x, y :: ys, rfl, ?_, ?_, by simp⟩
        · rw [hsortcons, insertByScoreDesc_head_cons _ _ _ hhead]
          simp [hcmp]
        · intro u hu
          rcases List.mem_cons.mp hu with rfl | hu'
          · exact le_refl _
          · exact le_trans (hmax u hu') hcmp
      · push_neg at hcmp
        refine ⟨x :: pre, best, post, by rw [hdecomp]; rfl, ?_, ?_, ?_⟩
        · rw [hsortcons, insertByScoreDesc_head_cons _ _ _ hhead]
          simp [not_le.mpr hcmp]
        · intro u hu
          rcases List.mem_cons.mp hu with rfl | hu'
          · exact le_of_lt hcmp
          · exact hmax u hu'
        · intro u hu
          rcases List.mem_cons.mp hu with rfl | hu'
          · exact hcmp
          · exact hpre u hu'

/-- C9: `detectBestTable` returns the earliest table attaining the maximal
score under `tableScore` (10 per keyword match, +50 for an exact table-name
substring match, +20 per underscore-delimited fragment match, over the
lowercased query); on an empty table list it returns the hard-coded
`olympic_medalists` default descriptor. -/
theorem detectBestTable_first_max_or_default (userQuery : String)
    (availableTables : List TableDescriptor) :
    (availableTables = [] →
      detectBestTable userQuery availableTables = fallbackTableDescriptor) ∧
    (availableTables ≠ [] →
      ∃ pre best post,
        availableTables = pre ++ best :: post ∧
        detectBestTable userQuery availableTables = best ∧
        (∀ u ∈ availableTables,
          tableScore (toLowerStr userQuery) u ≤ tableScore (toLowerStr userQuery) best) ∧
        (∀ u ∈ pre,
          tableScore (toLowerStr userQuery) u < tableScore (toLowerStr userQuery) best)) := by
  constructor
  · rintro rfl
    rfl
  · intro hne
    obtain ⟨pre, best, post, hdecomp, hhead, hmax, hpre⟩ :=
      sortByScoreDesc_first_max (toLowerStr userQuery) availableTables hne
    refine ⟨pre, best, post, hdecomp, ?_, hmax, hpre⟩
    simp [detectBestTable, hhead]

/-- C9, exhibited on the empty table list. -/
theorem detectBestTable_first_max_or_default_witness :
    detectBestTable "ขายสินค้าปีนี้" [] = fallbackTableDescriptor :=
  (detectBestTable_first_max_or_default "ขายสินค้าปีนี้" []).1 rfl

/-- C2: at any attempt `n ≤ maxRetries` of the retry loop, if synthesis and
execution succeed and the verification of that attempt has `isValid = true`
and `confidenceScore ≥ 70`, the loop returns immediately with that attempt's
`queryResults`, `sqlData` and `verification` (`attempt = n + 1`), and the
call trace grows by exactly one synthesis, one execution and one
verification — no further calls occur.  (`executeQueryWithRetry` is
`retryLoop` started at attempt 0 with fuel `maxRetries + 1`.) -/
theorem retryLoop_accepts_immediately {Row : Type} (env : RetryEnv Row)
    (maxRetries fuel attempt : Nat) (lastResult : Option (RetryOutcome Row))
    (currentSqlData : Option SqlSynthesisResult) (tr : RetryTrace)
    (sqlData : SqlSynthesisResult) (rows : List Row)
    (hle : attempt ≤ maxRetries)
    (hs : env.synth attempt lastResult = .ok sqlData)
    (he : env.exec attempt sqlData.sqlQuery = .ok rows)
    (hvalid : (env.verify attempt sqlData.sqlQuery rows).isValid = true)
    (hconf : 70 ≤ (env.verify attempt sqlData.sqlQuery rows).confidenceScore) :
    retryLoop env maxRetries (fuel + 1) attempt lastResult currentSqlData tr =
      (some { success := true, queryResults := rows, sqlData := sqlData
              verification := env.verify attempt sqlData.sqlQuery rows
              attempt := attempt + 1, maxRetries := maxRetries, error := none },
       { synthCalls := tr.synthCalls + 1, execCalls := tr.execCalls + 1
         verifyCalls := tr.verifyCalls + 1 }) := by
  simp [retryLoop, hle, hs, he, hvalid, hconf]

/-- C2, exhibited: an accepting first attempt of `executeQueryWithRetry`
(fuel `2 + 1`, attempt 0) returns at once with trace `(1, 1, 1)`. -/
theorem retryLoop_accepts_immediately_witness :
    retryLoop envAccepting 2 (2 + 1) 0 none none ⟨0, 0, 0⟩ =
      (some { success := true, queryResults := [()], sqlData := witnessSqlData
              verification := envAccepting.verify 0 witnessSqlData.sqlQuery [()]
              attempt := 0 + 1, maxRetries := 2, error := none },
       { synthCalls := 0 + 1, execCalls := 0 + 1, verifyCalls := 0 + 1 }) :=
  retryLoop_accepts_immediately envAccepting 2 2 0 none none ⟨0, 0, 0⟩ witnessSqlData [()]
    (by decide) rfl rfl rfl (by decide)

/-- C1: with `maxRetries = 2`, a verifier stub answering
`confidenceScore = 40, shouldRetry = true` on every attempt while synthesizer
and executor succeed makes `executeQueryWithRetry` perform exactly
`maxRetries + 1 = 3` synthesis (and execution, and verification) calls and
return `success = true, attempt = 3` — the exhausted-accepted outcome, never
iterating beyond the bound. -/
theorem executeQueryWithRetry_lowConfidence_exhausts {Row : Type} (env : RetryEnv Row)
    (hsynth : ∀ n lastResult, ∃ s, env.synth n lastResult = .ok s)
    (hexec : ∀ n sql, ∃ rows, env.exec n sql = .ok rows)
    (hverify : ∀ n sql rows, (env.verify n sql rows).confidenceScore = 40 ∧
      (env.verify n sql rows).shouldRetry = true) :
    ∃ outcome trace,
      executeQueryWithRetry env 2 = (some outcome, trace) ∧
      outcome.success = true ∧ outcome.attempt = 3 ∧
      trace.synthCalls = 3 ∧ trace.execCalls = 3 ∧ trace.verifyCalls = 3 := by
  obtain ⟨s0, h0⟩ := hsynth 0 none
  obtain ⟨r0, e0⟩ := hexec 0 s0.sqlQuery
  obtain ⟨s1, h1⟩ := hsynth 1 (some
    { success := true, queryResults := r0, sqlData := s0
      verification := env.verify 0 s0.sqlQuery r0
      attempt := 1, maxRetries := 2, error := none })
  obtain ⟨r1, e1⟩ := hexec 1 s1.sqlQuery
  obtain ⟨s2, h2⟩ := hsynth 2 (some
    { success := true, queryResults := r1, sqlData := s1
      verification := env.verify 1 s1.sqlQuery r1
      attempt := 2, maxRetries := 2, error := none })
  obtain ⟨r2, e2⟩ := hexec 2 s2.sqlQuery
  refine ⟨{ success := true, queryResults := r2, sqlData := s2
            verification := env.verify 2 s2.sqlQuery r2
            attempt := 3, maxRetries := 2, error := none },
    ⟨3, 3, 3⟩, ?_, rfl, rfl, rfl, rfl, rfl⟩
  have hv0 := hverify 0 s0.sqlQuery r0
  have hv1 := hverify 1 s1.sqlQuery r1
  have hv2 := hverify 2 s2.sqlQuery r2
  simp [executeQueryWithRetry, retryLoop, h0, e0, h1, e1, h2, e2,
    hv0.1, hv0.2, hv1.1, hv1.2, hv2.1, hv2.2]

/-- C1, exhibited with the always-40 verifier stub. -/
theorem executeQueryWithRetry_lowConfidence_exhausts_witness :
    ∃ outcome trace,
      executeQueryWithRetry envLowConfidence 2 = (some outcome, trace) ∧
      outcome.success = true ∧ outcome.attempt = 3 ∧
      trace.synthCalls = 3 ∧ trace.execCalls = 3 ∧ trace.verifyCalls = 3 :=
  executeQueryWithRetry_lowConfidence_exhausts envLowConfidence
    (fun _ _ => ⟨witnessSqlData, rfl⟩) (fun _ _ => ⟨[], rfl⟩)
    (fun _ _ _ => ⟨rfl, rfl⟩)

/-- Helper for C3: if the executor raises on every attempt, the loop started
at `attempt` with fuel `k + 1` such that `attempt + k = maxRetries` runs all
remaining iterations and then returns the structured error result. -/
theorem retryLoop_executor_fails_aux {Row : Type} (env : RetryEnv Row)
    (hexec : ∀ n sql, ∃ e, env.exec n sql = .error e) :
    ∀ (k attempt maxRetries : Nat) (lastResult : Option (RetryOutcome Row))
      (currentSqlData : Option SqlSynthesisResult) (tr : RetryTrace),
      attempt + k = maxRetries →
      ∃ outcome trace,
        retryLoop env maxRetries (k + 1) attempt lastResult currentSqlData tr =
          (some outcome, trace) ∧
        outcome.success = false ∧ outcome.queryResults = [] ∧
        outcome.error.isSome = true ∧ outcome.attempt = maxRetries + 1 ∧
        trace.synthCalls = tr.synthCalls + (k + 1) ∧
        (currentSqlData = none →
          (∀ n lastRes, ∃ e, env.synth n lastRes = .error e) →
          outcome.sqlData = placeholderSqlData) := by
  intro k
  induction k with
  | zero =>
    intro attempt maxRetries lastResult currentSqlData tr hk
    have hattempt : attempt = maxRetries := by omega
    subst hattempt
    cases hs : env.synth attempt lastResult with
    | error e =>
      refine ⟨errorOutcome Row attempt attempt e currentSqlData,
        { tr with synthCalls := tr.synthCalls + 1 }, ?_, rfl, rfl, rfl, rfl, by simp, ?_⟩
      · simp [retryLoop, hs]
      · rintro rfl -
        rfl
    | ok sqlData =>
      obtain ⟨e, he⟩ := hexec attempt sqlData.sqlQuery
      refine ⟨errorOutcome Row attempt attempt e (some sqlData),
        { tr with synthCalls := tr.synthCalls + 1, execCalls := tr.execCalls + 1 }, ?_,
        rfl, rfl, rfl, rfl, by simp, ?_⟩
      · simp [retryLoop, hs, he]
      · rintro - hsynthFails
        obtain ⟨e', he'⟩ := hsynthFails attempt lastResult
        rw [hs] at he'
        exact Except.noConfusion he'
  | succ k ih =>
    intro attempt maxRetries lastResult currentSqlData tr hk
    have hlt : attempt < maxRetries := by omega
    have hle : attempt ≤ maxRetries := le_of_lt hlt
    cases hs : env.synth attempt lastResult with
    | error e =>
      obtain ⟨outcome, trace, hrun, hsucc, hres, herr, hatt, htrace, hplaceholder⟩ :=
        ih (attempt + 1) maxRetries lastResult currentSqlData
          { tr with synthCalls := tr.synthCalls + 1 } (by omega)
      refine ⟨outcome, trace, ?_, hsucc, hres, herr, hatt, ?_,
        fun hnone hfails => hplaceholder hnone hfails⟩
      · simp only [retryLoop, hle, if_true, hs]
        rw [if_pos hlt]
        exact hrun
      · simp at htrace
        omega
    | ok sqlData =>
      obtain ⟨e, he⟩ := hexec attempt sqlData.sqlQuery
      obtain ⟨outcome, trace, hrun, hsucc, hres, herr, hatt, htrace, hplaceholder⟩ :=
        ih (attempt + 1) maxRetries lastResult (some sqlData)
          { tr with synthCalls := tr.synthCalls + 1, execCalls := tr.execCalls + 1 }
          (by omega)
      refine ⟨outcome, trace, ?_, hsucc, hres, herr, hatt, ?_, ?_⟩
      · simp only [retryLoop, hle, if_true, hs, he]
        rw [if_pos hlt]
        exact hrun
      · simp at htrace
        omega
      · rintro - hsynthFails
        obtain ⟨e', he'⟩ := hsynthFails attempt lastResult
        rw [hs] at he'
        exact Except.noConfusion he'

/-- C3: if the executor raises on every attempt, `executeQueryWithRetry`
returns (rather than raises) a structured result after exactly
`maxRetries + 1` attempts, with `success = false`, empty `queryResults` and a
non-null `error`; and when no synthesis result was produced either, the
`sqlData` is the placeholder whose SQL string is `SELECT "Error" as message`. -/
theorem executeQueryWithRetry_executorFailure_structured {Row : Type}
    (env : RetryEnv Row) (maxRetries : Nat)
    (hexec : ∀ n sql, ∃ e, env.exec n sql = .error e) :
    ∃ outcome trace,
      executeQueryWithRetry env maxRetries = (some outcome, trace) ∧
      outcome.success = false ∧ outcome.queryResults = [] ∧
      outcome.error.isSome = true ∧ outcome.attempt = maxRetries + 1 ∧
      trace.synthCalls = maxRetries + 1 ∧
      ((∀ n lastRes, ∃ e, env.synth n lastRes = .error e) →
        outcome.sqlData.sqlQuery = "SELECT \"Error\" as message") := by
  obtain ⟨outcome, trace, hrun, hsucc, hres, herr, hatt, htrace, hplaceholder⟩ :=
    retryLoop_executor_fails_aux env hexec maxRetries 0 maxRetries none none ⟨0, 0, 0⟩
      (by omega)
  refine ⟨outcome, trace, hrun, hsucc, hres, herr, hatt, by simpa using htrace, ?_⟩
  intro hfails
  rw [hplaceholder rfl hfails]
  rfl

/-- C3, exhibited on stubs where synthesizer and executor always raise. -/
theorem executeQueryWithRetry_executorFailure_structured_witness :
    ∃ outcome trace,
      executeQueryWithRetry envExecutorFailing 2 = (some outcome, trace) ∧
      outcome.success = false ∧ outcome.queryResults = [] ∧
      outcome.error.isSome = true ∧ outcome.attempt = 2 + 1 ∧
      trace.synthCalls = 2 + 1 ∧
      ((∀ n lastRes, ∃ e, envExecutorFailing.synth n lastRes = .error e) →
        outcome.sqlData.sqlQuery = "SELECT \"Error\" as message") :=
  executeQueryWithRetry_executorFailure_structured envExecutorFailing 2
    (fun _ _ => ⟨"ER_NO_SUCH_TABLE", rfl⟩)

/-- Helper: with `required_columns` present, `generateSQLQueryWithAI` never
raises. -/
theorem generateSQL_ok_of_present (columnAnalysis : ColumnAnalysis) (userQuery : String)
    (availableColumns : List ColumnDescriptor) (sampleData : SampleDataset)
    (tableName : String) (llm : Except String String)
    (sqlDecode : String → Option ParsedSql) (requiredColumns : List String)
    (hreq : columnAnalysis.required_columns = some requiredColumns) :
    ∃ r, generateSQLQueryWithAI columnAnalysis userQuery availableColumns sampleData
      tableName llm sqlDecode = .ok r := by
  cases llm with
  | error e =>
    exact ⟨fallbackSqlResult columnAnalysis tableName,
      by simp [generateSQLQueryWithAI, hreq]⟩
  | ok content =>
    cases hext : extractJsonCandidate content with
    | none =>
      exact ⟨fallbackSqlResult columnAnalysis tableName,
        by simp [generateSQLQueryWithAI, hreq, hext]⟩
    | some jsonText =>
      cases hdec : sqlDecode jsonText with
      | none =>
        exact ⟨fallbackSqlResult columnAnalysis tableName,
          by simp [generateSQLQueryWithAI, hreq, hext, hdec]⟩
      | some parsed =>
        exact ⟨{ sqlQuery := parsed.sql_query, explanation := parsed.explanation
                 queryReasoning := parsed.query_reasoning.getD ""
                 columnsUsed := parsed.columns_used.getD []
                 filtersApplied := parsed.filters_applied.getD []
                 chartSuitability := parsed.chart_suitability.getD ""
                 sampleDataInsights := parsed.sample_data_insights.getD "" },
          by simp [generateSQLQueryWithAI, hreq, hext, hdec]⟩

/-- Helper: once a column analysis with `required_columns` present has been
obtained, the rest of the handler always ends in a `result` notification
followed by `done` and never emits the protocol-level `error`. -/
theorem handlerAfterAnalysis_events (env : HandlerEnv) (tableName finalUserQuery : String)
    (availableColumns : List ColumnDescriptor) (columnAnalysis : ColumnAnalysis)
    (acc : List StreamEvent) (requiredColumns : List String)
    (hreq : columnAnalysis.required_columns = some requiredColumns)
    (hacc : StreamEvent.error ∉ acc) :
    (∃ b, StreamEvent.result b ∈
      handlerAfterAnalysis env tableName finalUserQuery availableColumns columnAnalysis acc) ∧
    StreamEvent.error ∉
      handlerAfterAnalysis env tableName finalUserQuery availableColumns columnAnalysis acc ∧
    StreamEvent.done ∈
      handlerAfterAnalysis env tableName finalUserQuery availableColumns columnAnalysis acc := by
  obtain ⟨r, hr⟩ := generateSQL_ok_of_present columnAnalysis finalUserQuery availableColumns
    (getSampleData env.sampleRun env.sampleDistinctRun tableName availableColumns 10)
    tableName env.sqlLlm env.sqlDecode requiredColumns hreq
  simp only [handlerAfterAnalysis, hr]
  rcases h2 : executeQueryWithRetry env.retryEnv 2 with ⟨opt, tr⟩
  cases opt with
  | none =>
    refine ⟨⟨false, by simp⟩, ?_, by simp⟩
    simp [List.mem_append, hacc]
  | some outcome =>
    by_cases hsuc : outcome.success = true
    · by_cases hatt : 1 < outcome.attempt
      · refine ⟨⟨true, by simp [hsuc, hatt]⟩, ?_, by simp [hsuc, hatt]⟩
        simp [hsuc, hatt, List.mem_append, hacc]
      · refine ⟨⟨true, by simp [hsuc, hatt]⟩, ?_, by simp [hsuc, hatt]⟩
        simp [hsuc, hatt, List.mem_append, hacc]
    · refine ⟨⟨false, by simp [hsuc]⟩, ?_, by simp [hsuc]⟩
      simp [hsuc, List.mem_append, hacc]

/-- C8, counterexample: with every store round-trip and every LLM call
failing and a query with no chart-type keyword, the request terminates with
a protocol-level `error` notification and the caller never receives a
`result` chart payload — refuting the claim that every request completes
with a chart payload even in total failure. -/
theorem queryStream_slow_path_llm_failure_no_result :
    (queryStreamHandler envTotalFailure "hello").any isResultEvent = false ∧
    StreamEvent.error ∈ queryStreamHandler envTotalFailure "hello" := by
  constructor <;> decide

/-- C8, amended: whenever the chart/column-analysis stage completes without
an exception — the fast path is taken, or the slow-path analysis LLM call
succeeds and (when its JSON parses) the parsed analysis carries
`required_columns` — the caller receives a `result` notification carrying
the chart payload (with failure visible only through its embedded flags) and
a `done` notification, and no protocol-level `error` is emitted, whatever
the store, executor and remaining LLM stubs do. -/
theorem queryStream_result_when_analysis_completes (env : HandlerEnv)
    (userQuery : String) (h : analysisStageCompletes env userQuery = true) :
    (∃ b, StreamEvent.result b ∈ queryStreamHandler env userQuery) ∧
    StreamEvent.error ∉ queryStreamHandler env userQuery ∧
    StreamEvent.done ∈ queryStreamHandler env userQuery := by
  simp only [analysisStageCompletes] at h
  simp only [queryStreamHandler]
  split at h
  next detected hdet =>
    exact handlerAfterAnalysis_events env _ _ _ _ _ _ rfl (by decide)
  next hdet =>
    split at h
    next e hllm => simp at h
    next content hllm =>
      split at h
      next jsonText hext =>
        split at h
        next parsed hdec =>
          obtain ⟨requiredColumns, hreq⟩ := Option.isSome_iff_exists.mp h
          rw [hreq]
          exact handlerAfterAnalysis_events env _ _ _ _ _ _ hreq (by decide)
        next hdec =>
          exact handlerAfterAnalysis_events env _ _ _ _ _ _ rfl (by decide)
      next hext =>
        exact handlerAfterAnalysis_events env _ _ _ _ _ _ rfl (by decide)

/-- C8, amended, exhibited: under total store/LLM failure, a query that
names its chart type still yields a `result` payload and no `error`. -/
theorem queryStream_result_when_analysis_completes_witness :
    (∃ b, StreamEvent.result b ∈ queryStreamHandler envTotalFailure "show a pie chart") ∧
    StreamEvent.error ∉ queryStreamHandler envTotalFailure "show a pie chart" ∧
    StreamEvent.done ∈ queryStreamHandler envTotalFailure "show a pie chart" :=
  queryStream_result_when_analysis_completes envTotalFailure "show a pie chart" (by decide)

end PromptToChart
